import Mathlib

/-!
Shallow embedding of the SLA / escalation core of the ticket service
(source file `server/src/services/ticketService.ts`, type declarations in
`server/src/types/index.ts`).

Modelling conventions:

* JavaScript `Date` values are `Int` timestamps in milliseconds since the
  epoch (the code compares dates and subtracts `getTime()` values only, and
  `setHours(getHours() + h)` amounts to adding `h * 3600000` milliseconds).
* `number` duration budgets (`responseTimeHours`, `resolutionTimeHours`) are
  `Int`; the fractional "time remaining in hours" results of `calculateSLA`
  (a division by `1000 * 60 * 60`) are `ℚ`.
* The JSON database is factored out: service methods that read a ticket from
  the store and write it back are modelled as pure functions from the ticket
  value (plus the configuration the method looks up, passed as an argument)
  to the updated ticket value.  `db.update` with a partial record is a
  record update; `new Date()` at a mutation site is an explicit `now`
  argument.  `checkSLABreaches` is modelled over an explicit list of stored
  tickets.
* Fields of `Ticket` that none of the modelled operations read or write
  (title, description, guest details, attachments, AI metadata, ...) are
  omitted; every field the SLA/escalation core touches is kept.
* `SLAConfig.workingHours` is modelled as an `Option`: SLA configurations are
  loaded from the JSON store untyped (`db.findBy<any>('slaConfigs', ...)` in
  `getSLAConfig`), so a stored policy may lack a working-hours table; `none`
  is the spec's "no working-hours configuration" (calendar-naive) case.
  `holidays` entries are the timestamps of the holiday dates.
-/

/-- `TicketStatus` from `types/index.ts` (string enum; constructor names are
the enum keys, `statusStr` gives the enum's string values). -/
inductive TicketStatus where
  | OPEN
  | IN_PROGRESS
  | ON_HOLD
  | ESCALATED
  | RESOLVED
  | CLOSED
  | CANCELLED
deriving DecidableEq, Repr

/-- The string value of each `TicketStatus` enum member. -/
def statusStr : TicketStatus → String
  | .OPEN => "open"
  | .IN_PROGRESS => "in_progress"
  | .ON_HOLD => "on_hold"
  | .ESCALATED => "escalated"
  | .RESOLVED => "resolved"
  | .CLOSED => "closed"
  | .CANCELLED => "cancelled"

/-- `DaySchedule` from `types/index.ts`. -/
structure DaySchedule where
  isWorkingDay : Bool
  startTime : Option String
  endTime : Option String
deriving DecidableEq, Repr

/-- `WorkingHours` from `types/index.ts`. -/
structure WorkingHours where
  monday : DaySchedule
  tuesday : DaySchedule
  wednesday : DaySchedule
  thursday : DaySchedule
  friday : DaySchedule
  saturday : DaySchedule
  sunday : DaySchedule
deriving DecidableEq, Repr

/-- `SLAConfig` from `types/index.ts`.  `workingHours` is optional here
because stored configurations are read untyped (see the header comment);
`pausedAt` / `resumedAt` carry the pause history of a paused/resumed
policy. -/
structure SLAConfig where
  responseTimeHours : Int
  resolutionTimeHours : Int
  workingHours : Option WorkingHours
  holidays : List Int
  isPaused : Bool
  pauseReason : Option String
  pausedAt : Option Int
  resumedAt : Option Int
deriving DecidableEq, Repr

/-- `NotificationRecord` from `types/index.ts`. -/
structure NotificationRecord where
  type : String
  recipient : String
  sentAt : Int
  status : String
deriving DecidableEq, Repr

/-- `EscalationRecord` from `types/index.ts`. -/
structure EscalationRecord where
  level : Nat
  escalatedTo : String
  escalatedBy : String
  reason : String
  escalatedAt : Int
  notificationsSent : List NotificationRecord
deriving DecidableEq, Repr

/-- `InternalNote` from `types/index.ts` (the generated `id` is omitted). -/
structure InternalNote where
  content : String
  addedBy : String
  addedAt : Int
deriving DecidableEq, Repr

/-- `TicketResponse` from `types/index.ts` (the generated `id` is omitted). -/
structure TicketResponse where
  content : String
  sentBy : String
  sentTo : String
  channel : String
  isAutomated : Bool
  sentAt : Int
deriving DecidableEq, Repr

/-- An entry of the escalation-rules list returned by
`getEscalationRules` (`{ level, escalateTo, timeoutHours }`). -/
structure EscalationRule where
  level : Nat
  escalateTo : String
  timeoutHours : Int
deriving DecidableEq, Repr

/-- `Ticket` from `types/index.ts`, restricted to the fields the modelled
SLA/escalation operations read or write. -/
structure Ticket where
  id : String
  status : TicketStatus
  assignedTo : Option String
  department : String
  internalNotes : List InternalNote
  responses : List TicketResponse
  slaConfig : SLAConfig
  escalationHistory : List EscalationRecord
  isEscalated : Bool
  escalationLevel : Nat
  createdAt : Int
  resolvedAt : Option Int
  closedAt : Option Int
deriving DecidableEq, Repr

/-- `SLACalculationResult` from `ticketService.ts` (deadlines are timestamps,
remaining times are hours). -/
structure SLACalculationResult where
  responseDeadline : Int
  resolutionDeadline : Int
  isWithinResponseSLA : Bool
  isWithinResolutionSLA : Bool
  responseTimeRemaining : ℚ
  resolutionTimeRemaining : ℚ
deriving DecidableEq, Repr

/-- `TicketService.addWorkingHours`: the source is a stub that adds the raw
hours to the start date and ignores the `sla` argument entirely
("Simple implementation - in production, this would consider working hours
and holidays").  `setHours(getHours() + hours)` is adding
`hours * 3600000` milliseconds. -/
def addWorkingHours (startDate : Int) (hours : Int) (sla : SLAConfig) : Int :=
  startDate + hours * 3600000

/-- Milliseconds in one hour, the `1000 * 60 * 60` divisor of
`calculateSLA`. -/
def msPerHour : ℚ := 1000 * 60 * 60

/-- `TicketService.calculateSLA` at instant `now`: deadlines via
`addWorkingHours`; response compliance from the first element of
`ticket.responses` when one exists, else from `now`; resolution compliance
from `resolvedAt` when set, else from `now`; remaining times clamped at 0 and
expressed in hours. -/
def calculateSLA (ticket : Ticket) (now : Int) : SLACalculationResult :=
  let sla := ticket.slaConfig
  let responseDeadline := addWorkingHours ticket.createdAt sla.responseTimeHours sla
  let resolutionDeadline := addWorkingHours ticket.createdAt sla.resolutionTimeHours sla
  let isWithinResponseSLA :=
    match ticket.responses with
    | r :: _ => decide (r.sentAt ≤ responseDeadline)
    | [] => decide (now ≤ responseDeadline)
  let isWithinResolutionSLA :=
    match ticket.resolvedAt with
    | some resolvedAt => decide (resolvedAt ≤ resolutionDeadline)
    | none => decide (now ≤ resolutionDeadline)
  { responseDeadline := responseDeadline
    resolutionDeadline := resolutionDeadline
    isWithinResponseSLA := isWithinResponseSLA
    isWithinResolutionSLA := isWithinResolutionSLA
    responseTimeRemaining := max 0 ((responseDeadline - now : Int) / msPerHour)
    resolutionTimeRemaining := max 0 ((resolutionDeadline - now : Int) / msPerHour) }

/-- `TicketService.updateTicketStatus` on a found ticket: writes the
requested status unconditionally, stamps `resolvedAt` on entry to RESOLVED
and `closedAt` on entry to CLOSED, and, when a reason is supplied, appends
the audit note that `addInternalNote` stores. -/
def updateTicketStatus (ticket : Ticket) (status : TicketStatus)
    (updatedBy : String) (reason : Option String) (now : Int) : Ticket :=
  let t1 : Ticket :=
    if status = TicketStatus.RESOLVED then
      { ticket with status := status, resolvedAt := some now }
    else if status = TicketStatus.CLOSED then
      { ticket with status := status, closedAt := some now }
    else
      { ticket with status := status }
  match reason with
  | some r =>
      { t1 with internalNotes := t1.internalNotes ++
          [{ content := "Status changed to " ++ statusStr status ++ ": " ++ r
             addedBy := updatedBy
             addedAt := now }] }
  | none => t1

/-- The fallback escalation-rules list of `getEscalationRules`, used when the
store holds no rules for the department. -/
def defaultEscalationRules : List EscalationRule :=
  [ { level := 1, escalateTo := "manager", timeoutHours := 4 },
    { level := 2, escalateTo := "admin", timeoutHours := 8 } ]

/-- `TicketService.getEscalationRules`, over the rules the store returns for
the ticket's department. -/
def getEscalationRules (dbRules : List EscalationRule) : List EscalationRule :=
  if dbRules.length > 0 then dbRules else defaultEscalationRules

/-- The error message of the `throw new Error(...)` in `escalateTicket`
(the spec's `MaxEscalationLevelReached`). -/
def maxEscalationLevelReachedMsg : String := "Maximum escalation level reached"

/-- `TicketService.escalateTicket` on a found ticket, with
`escalationRules` the list `getEscalationRules(ticket.department)` returns.
The candidate level is `ticket.escalationLevel + 1`; if it exceeds the rules
length the call throws before any store write, otherwise the ticket is
updated (escalation flag, level, ESCALATED status, reassignment to the rule's
recipient, appended escalation record) and the follow-up `addInternalNote`
appends the audit note.  The result models the stored ticket. -/
def escalateTicket (ticket : Ticket) (escalationRules : List EscalationRule)
    (escalatedBy : String) (reason : String) (now : Int) :
    Except String Ticket :=
  let escalationLevel := ticket.escalationLevel + 1
  if h : escalationLevel > escalationRules.length then
    .error maxEscalationLevelReachedMsg
  else
    let nextLevelRule := escalationRules.get ⟨escalationLevel - 1, by omega⟩
    let escalationRecord : EscalationRecord :=
      { level := escalationLevel
        escalatedTo := nextLevelRule.escalateTo
        escalatedBy := escalatedBy
        reason := reason
        escalatedAt := now
        notificationsSent := [] }
    .ok { ticket with
            isEscalated := true
            escalationLevel := escalationLevel
            status := TicketStatus.ESCALATED
            assignedTo := some nextLevelRule.escalateTo
            escalationHistory := ticket.escalationHistory ++ [escalationRecord]
            internalNotes := ticket.internalNotes ++
              [{ content := "Ticket escalated to level " ++
                   toString escalationLevel ++ ": " ++ reason
                 addedBy := escalatedBy
                 addedAt := now }] }

/-- The status filter of `checkSLABreaches`:
`[TicketStatus.OPEN, TicketStatus.IN_PROGRESS].includes(ticket.status)`. -/
def sweepSelects (ticket : Ticket) : Bool :=
  ticket.status = TicketStatus.OPEN ∨ ticket.status = TicketStatus.IN_PROGRESS

/-- What one sweep iteration did for one selected ticket: whether an
auto-escalation was performed and which SLA warnings were dispatched. -/
structure SweepAction where
  escalated : Bool
  responseWarning : Bool
  resolutionWarning : Bool
deriving DecidableEq, Repr

/-- The loop body of `checkSLABreaches` for one selected ticket: compute
`calculateSLA`, auto-escalate when resolution time remaining is at most 1
hour and the ticket is not already escalated (an escalation error is caught
and logged), then dispatch the response warning (time remaining at most 0.5
hours and no response recorded) and the resolution warning (time remaining at
most 2 hours and not resolved), both evaluated on the ticket as read.
Returns the stored ticket after the iteration together with the actions. -/
def sweepTicketBody (ticket : Ticket) (escalationRules : List EscalationRule)
    (now : Int) : Ticket × SweepAction :=
  let slaResult := calculateSLA ticket now
  let esc :=
    if slaResult.resolutionTimeRemaining ≤ 1 ∧ ticket.isEscalated = false then
      match escalateTicket ticket escalationRules "system"
          "Auto-escalated due to SLA breach risk" now with
      | .ok t' => (t', true)
      | .error _ => (ticket, false)
    else (ticket, false)
  let responseWarning :=
    decide (slaResult.responseTimeRemaining ≤ 1/2) && decide (ticket.responses.length = 0)
  let resolutionWarning :=
    decide (slaResult.resolutionTimeRemaining ≤ 2) && decide (ticket.resolvedAt = none)
  (esc.1, { escalated := esc.2
            responseWarning := responseWarning
            resolutionWarning := resolutionWarning })

/-- `TicketService.checkSLABreaches` over the stored tickets: select the
OPEN / IN_PROGRESS tickets and run the loop body on each (rules resolved per
ticket department are passed as one list, as every claim instantiates a
single department). -/
def checkSLABreaches (tickets : List Ticket)
    (escalationRules : List EscalationRule) (now : Int) :
    List (Ticket × SweepAction) :=
  (tickets.filter sweepSelects).map
    (fun t => sweepTicketBody t escalationRules now)

/-- `TicketService.sendAutoResponse` followed by the `addTicketResponse` it
performs: when the smart-replies list for the ticket's category is nonempty,
append an automated response from "system" to the guest over email with the
first suggested reply. -/
def sendAutoResponse (ticket : Ticket) (smartReplies : List String)
    (now : Int) : Ticket :=
  match smartReplies with
  | [] => ticket
  | reply :: _ =>
      { ticket with responses := ticket.responses ++
          [{ content := reply
             sentBy := "system"
             sentTo := "guest"
             channel := "email"
             isAutomated := true
             sentAt := now }] }

/-- `TicketService.createTicket`, restricted to the modelled fields: the
classifier outputs and looked-up configuration (department, SLA config,
auto-assignment, smart replies) enter as arguments; the fresh ticket starts
OPEN with empty histories and level 0, and `sendAutoResponse` runs on it
immediately (`responseNow` is the instant that response is recorded). -/
def createTicket (id : String) (department : String) (slaConfig : SLAConfig)
    (assignedTo : Option String) (smartReplies : List String)
    (createdNow : Int) (responseNow : Int) : Ticket :=
  let ticket : Ticket :=
    { id := id
      status := TicketStatus.OPEN
      assignedTo := assignedTo
      department := department
      internalNotes := []
      responses := []
      slaConfig := slaConfig
      escalationHistory := []
      isEscalated := false
      escalationLevel := 0
      createdAt := createdNow
      resolvedAt := none
      closedAt := none }
  sendAutoResponse ticket smartReplies responseNow

/-! ### Concrete sample data (used by witnesses and counterexamples) -/

/-- A calendar-naive, never-paused SLA configuration with the default
budgets (2 h response, 24 h resolution). -/
def sampleCfg : SLAConfig :=
  { responseTimeHours := 2
    resolutionTimeHours := 24
    workingHours := none
    holidays := []
    isPaused := false
    pauseReason := none
    pausedAt := none
    resumedAt := none }

/-- A freshly stored sample ticket, created at time 0. -/
def baseTicket : Ticket :=
  { id := "t1"
    status := TicketStatus.OPEN
    assignedTo := none
    department := "Front Desk"
    internalNotes := []
    responses := []
    slaConfig := sampleCfg
    escalationHistory := []
    isEscalated := false
    escalationLevel := 0
    createdAt := 0
    resolvedAt := none
    closedAt := none }

/-- The record the sweep's auto-escalation appends at level 1. -/
def sampleRecord : EscalationRecord :=
  { level := 1
    escalatedTo := "manager"
    escalatedBy := "system"
    reason := "Auto-escalated due to SLA breach risk"
    escalatedAt := 0
    notificationsSent := [] }

/-- A ticket the sweep has already escalated to level 1. -/
def escalatedTicket : Ticket :=
  { baseTicket with
      status := TicketStatus.ESCALATED
      isEscalated := true
      escalationLevel := 1
      assignedTo := some "manager"
      escalationHistory := [sampleRecord] }

/-- `escalatedTicket` after an agent moves it back to IN_PROGRESS. -/
def reopenedTicket : Ticket :=
  updateTicketStatus escalatedTicket TicketStatus.IN_PROGRESS "agent1" none 1000

/-- A ticket in the terminal CLOSED status. -/
def closedTicket : Ticket :=
  { baseTicket with status := TicketStatus.CLOSED, closedAt := some 500 }

/-- A ticket parked ON_HOLD. -/
def onHoldTicket : Ticket :=
  { baseTicket with status := TicketStatus.ON_HOLD }

/-- A ticket marked RESOLVED. -/
def resolvedTicket : Ticket :=
  { baseTicket with status := TicketStatus.RESOLVED, resolvedAt := some 1000 }

/-! ### Theorems -/

/-- **C2** (confirmed).  For every ticket whose `escalationLevel` equals the
length of its department's escalation-rules list, `escalateTicket` throws
"Maximum escalation level reached" (the spec's `MaxEscalationLevelReached`).
The throw happens before any store write, so in this pure embedding the error
result itself witnesses that `escalationLevel`, `status`, `assignedTo` and
the escalation history are left exactly as before the call. -/
theorem escalate_at_max_level_fails (t : Ticket)
    (rules : List EscalationRule) (escalatedBy reason : String) (now : Int)
    (h : t.escalationLevel = rules.length) :
    escalateTicket t rules escalatedBy reason now =
      Except.error maxEscalationLevelReachedMsg := by
  unfold escalateTicket
  rw [dif_pos (by omega)]

/-- Witness for `escalate_at_max_level_fails`: a ticket at level 2 against
the two-entry default ladder. -/
theorem escalate_at_max_level_fails_witness :
    ({ baseTicket with escalationLevel := 2 } : Ticket).escalationLevel =
        defaultEscalationRules.length ∧
    escalateTicket { baseTicket with escalationLevel := 2 }
        defaultEscalationRules "agent1" "push" 3000 =
      Except.error maxEscalationLevelReachedMsg :=
  ⟨by decide,
   escalate_at_max_level_fails { baseTicket with escalationLevel := 2 }
     defaultEscalationRules "agent1" "push" 3000 (by decide)⟩

/-- **C6** (confirmed).  For a ticket whose policy has no working-hours
configuration, the response deadline is exactly the creation time plus the
response budget, and the resolution deadline is the creation time plus the
resolution budget (the stub `addWorkingHours` adds the raw hours). -/
theorem calendar_naive_deadlines (t : Ticket) (now : Int)
    (h : t.slaConfig.workingHours = none) :
    (calculateSLA t now).responseDeadline =
        t.createdAt + t.slaConfig.responseTimeHours * 3600000 ∧
    (calculateSLA t now).resolutionDeadline =
        t.createdAt + t.slaConfig.resolutionTimeHours * 3600000 :=
  ⟨rfl, rfl⟩

/-- Witness for `calendar_naive_deadlines`: the sample ticket (created at 0,
budgets 2 h / 24 h, no working-hours table). -/
theorem calendar_naive_deadlines_witness :
    baseTicket.slaConfig.workingHours = none ∧
    ((calculateSLA baseTicket 0).responseDeadline =
        baseTicket.createdAt + baseTicket.slaConfig.responseTimeHours * 3600000 ∧
     (calculateSLA baseTicket 0).resolutionDeadline =
        baseTicket.createdAt + baseTicket.slaConfig.resolutionTimeHours * 3600000) :=
  ⟨rfl, calendar_naive_deadlines baseTicket 0 rfl⟩

/-- **C10** (confirmed).  Ticket creation with a nonempty smart-replies list
stores the automated auto-response as the sole (hence first) entry of
`responses`; `calculateSLA` computes `isWithinResponseSLA` from that
auto-response's timestamp — also after any further (human) responses are
appended behind it — and the sweep's response-SLA warning, which requires an
empty responses list, is never dispatched for such a ticket. -/
theorem auto_response_counts_as_first_response
    (id dept : String) (cfg : SLAConfig) (asg : Option String)
    (reply : String) (rest : List String) (extra : List TicketResponse)
    (t0 t1 now : Int) (rules : List EscalationRule) :
    (createTicket id dept cfg asg (reply :: rest) t0 t1).responses =
      [{ content := reply, sentBy := "system", sentTo := "guest",
         channel := "email", isAutomated := true, sentAt := t1 }] ∧
    (calculateSLA
        { createTicket id dept cfg asg (reply :: rest) t0 t1 with
            responses :=
              (createTicket id dept cfg asg (reply :: rest) t0 t1).responses
                ++ extra } now).isWithinResponseSLA =
      decide (t1 ≤ t0 + cfg.responseTimeHours * 3600000) ∧
    sweepSelects (createTicket id dept cfg asg (reply :: rest) t0 t1) = true ∧
    (sweepTicketBody (createTicket id dept cfg asg (reply :: rest) t0 t1)
        rules now).2.responseWarning = false := by
  refine ⟨rfl, rfl, rfl, ?_⟩
  simp [sweepTicketBody, createTicket, sendAutoResponse]

/-- **C3** (corrected): counterexample.  The claim says a requested
transition not in the allowed table — in particular CLOSED → IN_PROGRESS —
is rejected with `InvalidTransition` and the ticket left unchanged.  In the
code `updateTicketStatus` has no transition table and no error path besides
an unknown id: on a CLOSED ticket a requested IN_PROGRESS status is simply
written. -/
theorem closed_to_in_progress_applied :
    closedTicket.status = TicketStatus.CLOSED ∧
    (updateTicketStatus closedTicket TicketStatus.IN_PROGRESS "agent1" none
        1000).status = TicketStatus.IN_PROGRESS ∧
    updateTicketStatus closedTicket TicketStatus.IN_PROGRESS "agent1" none 1000
      = { closedTicket with status := TicketStatus.IN_PROGRESS } := by
  refine ⟨rfl, rfl, ?_⟩
  decide

/-- **C3** (corrected): amended claim.  `updateTicketStatus` applies every
requested status unconditionally — no transition is ever rejected, there is
no `InvalidTransition` outcome, and in particular CLOSED → IN_PROGRESS
succeeds. -/
theorem updateTicketStatus_applies_any_status (t : Ticket)
    (s : TicketStatus) (updatedBy : String) (reason : Option String)
    (now : Int) :
    (updateTicketStatus t s updatedBy reason now).status = s := by
  cases reason <;> simp [updateTicketStatus] <;> split_ifs <;> simp_all

/-- **C8** (corrected): counterexample.  The claim's invariant is
"`resolvedAt` is set iff the status is resolved/terminal" and that reopening
clears `resolvedAt`.  Resolving the sample ticket at 5000 and reopening it
to IN_PROGRESS at 6000 leaves `resolvedAt = some 5000` on a ticket whose
status is IN_PROGRESS: reopening does not clear it and the iff fails. -/
theorem resolvedAt_not_cleared_on_reopen :
    (updateTicketStatus
        (updateTicketStatus baseTicket TicketStatus.RESOLVED "agent1" none 5000)
        TicketStatus.IN_PROGRESS "agent1" none 6000).status =
      TicketStatus.IN_PROGRESS ∧
    (updateTicketStatus
        (updateTicketStatus baseTicket TicketStatus.RESOLVED "agent1" none 5000)
        TicketStatus.IN_PROGRESS "agent1" none 6000).resolvedAt = some 5000 := by
  decide

/-- **C8** (corrected): amended claim.  `updateTicketStatus` stamps
`resolvedAt` on entry to RESOLVED and never clears it afterwards: reopening
a RESOLVED ticket to IN_PROGRESS keeps the old `resolvedAt`, so a
non-resolved, non-terminal ticket can carry a set `resolvedAt` and the
claimed iff-invariant does not hold. -/
theorem reopen_keeps_resolvedAt (t : Ticket) (a1 a2 : String)
    (r1 r2 : Option String) (n1 n2 : Int) :
    (updateTicketStatus
        (updateTicketStatus t TicketStatus.RESOLVED a1 r1 n1)
        TicketStatus.IN_PROGRESS a2 r2 n2).status = TicketStatus.IN_PROGRESS ∧
    (updateTicketStatus
        (updateTicketStatus t TicketStatus.RESOLVED a1 r1 n1)
        TicketStatus.IN_PROGRESS a2 r2 n2).resolvedAt = some n1 := by
  cases r1 <;> cases r2 <;> simp [updateTicketStatus]

/-- **C9** (corrected): counterexample.  The claim says a terminal ticket is
immutable and in particular `escalateTicket` does not mutate it.
`escalateTicket` performs no terminal-status check: on the CLOSED sample
ticket (level 0, default two-entry ladder) it succeeds, setting status
ESCALATED, level 1, reassigning to "manager" and appending an escalation
record. -/
theorem escalate_mutates_closed_ticket :
    closedTicket.status = TicketStatus.CLOSED ∧
    (escalateTicket closedTicket defaultEscalationRules "agent1" "push"
        2000).toOption.map Ticket.status = some TicketStatus.ESCALATED ∧
    (escalateTicket closedTicket defaultEscalationRules "agent1" "push"
        2000).toOption.map Ticket.escalationLevel = some 1 ∧
    (escalateTicket closedTicket defaultEscalationRules "agent1" "push"
        2000).toOption.map Ticket.assignedTo = some (some "manager") ∧
    (escalateTicket closedTicket defaultEscalationRules "agent1" "push"
        2000).toOption.map (fun u => u.escalationHistory.length) = some 1 := by
  decide

/-- **C9** (corrected): amended claim.  Terminal status does not protect a
ticket from escalation: for every CLOSED or CANCELLED ticket whose next
level still fits the ladder, `escalateTicket` succeeds and mutates it —
status becomes ESCALATED, the level increments and an escalation record is
appended.  Only the maximum-level guard limits escalation; no
terminal-status precondition exists. -/
theorem escalate_ignores_terminal_status (t : Ticket)
    (rules : List EscalationRule) (escalatedBy reason : String) (now : Int)
    (hterm : t.status = TicketStatus.CLOSED ∨ t.status = TicketStatus.CANCELLED)
    (h : t.escalationLevel + 1 ≤ rules.length) :
    (escalateTicket t rules escalatedBy reason now).toOption.map Ticket.status
        = some TicketStatus.ESCALATED ∧
    (escalateTicket t rules escalatedBy reason now).toOption.map
        Ticket.escalationLevel = some (t.escalationLevel + 1) ∧
    (escalateTicket t rules escalatedBy reason now).toOption.map
        (fun u => u.escalationHistory.length)
        = some (t.escalationHistory.length + 1) := by
  unfold escalateTicket
  rw [dif_neg (by omega)]
  simp [Except.toOption]

/-- Witness for `escalate_ignores_terminal_status`: the CLOSED sample ticket
against the default two-entry ladder. -/
theorem escalate_ignores_terminal_status_witness :
    (closedTicket.status = TicketStatus.CLOSED ∨
        closedTicket.status = TicketStatus.CANCELLED) ∧
    closedTicket.escalationLevel + 1 ≤ defaultEscalationRules.length ∧
    ((escalateTicket closedTicket defaultEscalationRules "agent1" "audit"
        2500).toOption.map Ticket.status = some TicketStatus.ESCALATED ∧
     (escalateTicket closedTicket defaultEscalationRules "agent1" "audit"
        2500).toOption.map Ticket.escalationLevel
        = some (closedTicket.escalationLevel + 1) ∧
     (escalateTicket closedTicket defaultEscalationRules "agent1" "audit"
        2500).toOption.map (fun u => u.escalationHistory.length)
        = some (closedTicket.escalationHistory.length + 1)) :=
  ⟨Or.inl rfl, by decide,
   escalate_ignores_terminal_status closedTicket defaultEscalationRules
     "agent1" "audit" 2500 (Or.inl rfl) (by decide)⟩

/-- `sampleCfg` after a pause at 10000000 resumed at 13600000: a pause of
exactly P = 3600000 ms (one hour) of accumulated paused duration. -/
def pausedCfg : SLAConfig :=
  { sampleCfg with
      isPaused := false
      pauseReason := some "maintenance"
      pausedAt := some 10000000
      resumedAt := some 13600000 }

/-- **C4** (corrected): counterexample.  The claim predicts that a policy
paused for P = 3600000 ms and resumed yields a `resolutionDeadline` exactly
P later than the identical never-paused policy.  With the sample ticket the
two deadlines are equal — the pause shifts nothing. -/
theorem pause_shift_counterexample :
    (calculateSLA { baseTicket with slaConfig := pausedCfg } 0).resolutionDeadline
      = (calculateSLA baseTicket 0).resolutionDeadline ∧
    ¬ ((calculateSLA { baseTicket with slaConfig := pausedCfg } 0).resolutionDeadline
        = (calculateSLA baseTicket 0).resolutionDeadline + 3600000) := by
  decide

/-- **C4** (corrected): amended claim.  `calculateSLA` never reads the pause
state: altering `isPaused`, `pauseReason`, `pausedAt` and `resumedAt`
arbitrarily leaves the whole result — in particular `resolutionDeadline` —
unchanged, so a paused-and-resumed policy yields exactly the never-paused
deadline (a shift of 0, not P). -/
theorem calculateSLA_ignores_pause (t : Ticket) (now : Int) (p : Bool)
    (pr : Option String) (pa ra : Option Int) :
    calculateSLA
        { t with slaConfig :=
            { t.slaConfig with
                isPaused := p, pauseReason := pr,
                pausedAt := pa, resumedAt := ra } } now
      = calculateSLA t now :=
  rfl

/-- A day schedule marking the day as non-working. -/
def nonWorkingDay : DaySchedule :=
  { isWorkingDay := false, startTime := none, endTime := none }

/-- A configuration whose working-hours table marks every weekday
non-working and whose holiday list contains the day starting at timestamp
1728000000000 (day number 20000; its 86400000 ms all lie on that date). -/
def allClosedCfg : SLAConfig :=
  { responseTimeHours := 2
    resolutionTimeHours := 24
    workingHours := some
      { monday := nonWorkingDay
        tuesday := nonWorkingDay
        wednesday := nonWorkingDay
        thursday := nonWorkingDay
        friday := nonWorkingDay
        saturday := nonWorkingDay
        sunday := nonWorkingDay }
    holidays := [1728000000000]
    isPaused := false
    pauseReason := none
    pausedAt := none
    resumedAt := none }

/-- **C5** (corrected): counterexample.  Under the claim, a configured
holiday contributes zero working minutes and only minutes inside working
windows count — under `allClosedCfg` (every weekday non-working, the whole
day 20000 a holiday) no working minute ever accrues, so a 2-hour budget
started at the holiday's midnight could never be counted as consumed within
that same day.  The code returns exactly start + 2 h, two hours entirely
inside the configured holiday and outside every working window. -/
theorem working_hours_ignored_counterexample :
    allClosedCfg.workingHours.isSome = true ∧
    allClosedCfg.holidays = [1728000000000] ∧
    addWorkingHours 1728000000000 2 allClosedCfg = 1728000000000 + 7200000 ∧
    (1728000000000 + 7200000) / 86400000 = 1728000000000 / 86400000 := by
  decide

/-- **C5** (corrected): amended claim.  `addWorkingHours` never consults the
working-hours table or the holiday list: for every configuration — with or
without working hours, holidays or not — the deadline is the start plus the
raw hours of the budget (calendar-naive always). -/
theorem addWorkingHours_ignores_calendar (startDate : Int) (hours : Int)
    (sla : SLAConfig) :
    addWorkingHours startDate hours sla = startDate + hours * 3600000 :=
  rfl

/-- **C7** (corrected): counterexample.  The claim says every run of the
sweep evaluates every ticket that is neither CLOSED nor CANCELLED —
including ON_HOLD, ESCALATED and RESOLVED tickets.  Over a store holding
exactly one ticket of each of those three statuses (none terminal), the
sweep evaluates nothing. -/
theorem sweep_skips_non_terminal_statuses :
    onHoldTicket.status ≠ TicketStatus.CLOSED ∧
    onHoldTicket.status ≠ TicketStatus.CANCELLED ∧
    escalatedTicket.status ≠ TicketStatus.CLOSED ∧
    escalatedTicket.status ≠ TicketStatus.CANCELLED ∧
    resolvedTicket.status ≠ TicketStatus.CLOSED ∧
    resolvedTicket.status ≠ TicketStatus.CANCELLED ∧
    checkSLABreaches [onHoldTicket, escalatedTicket, resolvedTicket]
        defaultEscalationRules 0 = [] := by
  decide

/-- **C7** (corrected): amended claim.  The sweep evaluates exactly the
tickets whose status is OPEN or IN_PROGRESS: a pair appears in a run's
output iff it is the loop body's result on a stored ticket of one of those
two statuses.  ON_HOLD, ESCALATED and RESOLVED tickets are skipped along
with the terminal ones. -/
theorem sweep_evaluates_exactly_open_and_in_progress
    (tickets : List Ticket) (rules : List EscalationRule) (now : Int)
    (x : Ticket × SweepAction) :
    x ∈ checkSLABreaches tickets rules now ↔
      ∃ t, t ∈ tickets ∧
        (t.status = TicketStatus.OPEN ∨ t.status = TicketStatus.IN_PROGRESS) ∧
        x = sweepTicketBody t rules now := by
  simp only [checkSLABreaches, List.mem_map, List.mem_filter, sweepSelects,
    decide_eq_true_eq]
  constructor
  · rintro ⟨t, ⟨ht, hs⟩, hx⟩
    exact ⟨t, ht, hs, hx.symm⟩
  · rintro ⟨t, ht, hs, hx⟩
    exact ⟨t, ⟨ht, hs⟩, hx.symm⟩

/-- **C1** (corrected): counterexample.  The claim's second half says that a
ticket an agent moved from ESCALATED back to IN_PROGRESS is escalated again
by a sweep that finds it at renewed resolution risk.  `reopenedTicket` is
exactly such a ticket (status IN_PROGRESS, one escalation on record) and at
time 82800000 its resolution time remaining is 1 h ≤ the 1-hour threshold,
yet the sweep leaves it untouched and appends no record: the agent's status
update never cleared `isEscalated`, and the sweep's guard reads that flag —
which is also why `isEscalated == true` is *not* equivalent to status
ESCALATED here. -/
theorem reopened_ticket_not_reescalated :
    reopenedTicket.status = TicketStatus.IN_PROGRESS ∧
    reopenedTicket.isEscalated = true ∧
    (calculateSLA reopenedTicket 82800000).resolutionTimeRemaining ≤ 1 ∧
    (sweepTicketBody reopenedTicket defaultEscalationRules 82800000).2.escalated
      = false ∧
    (sweepTicketBody reopenedTicket defaultEscalationRules 82800000).1
      = reopenedTicket := by
  have hEsc : reopenedTicket.isEscalated = true := rfl
  have hre :
      reopenedTicket = { escalatedTicket with status := TicketStatus.IN_PROGRESS } := by
    decide
  have hrem :
      (calculateSLA reopenedTicket 82800000).resolutionTimeRemaining ≤ 1 := by
    rw [hre]
    norm_num [calculateSLA, addWorkingHours, msPerHour, escalatedTicket,
      baseTicket, sampleCfg]
  refine ⟨rfl, hEsc, hrem, ?_, ?_⟩ <;> simp [sweepTicketBody, hEsc]

/-- **C1** (corrected): amended claim.  For every ticket with
`isEscalated == true` the sweep's loop body performs no escalation and
leaves the stored ticket unchanged (no new record, level unchanged) — and
this remains so after an agent moves the ticket back to IN_PROGRESS, even at
renewed resolution risk, because the status update preserves `isEscalated`
and the sweep's sole guard is that flag (status ESCALATED additionally keeps
a ticket out of the sweep's selection altogether). -/
theorem sweep_never_reescalates (t : Ticket) (rules : List EscalationRule)
    (now now1 now2 : Int) (agent : String) (h : t.isEscalated = true) :
    (sweepTicketBody t rules now).1 = t ∧
    (sweepTicketBody t rules now).2.escalated = false ∧
    (updateTicketStatus t TicketStatus.IN_PROGRESS agent none now1).isEscalated
      = true ∧
    (sweepTicketBody
        (updateTicketStatus t TicketStatus.IN_PROGRESS agent none now1)
        rules now2).1
      = updateTicketStatus t TicketStatus.IN_PROGRESS agent none now1 ∧
    (sweepTicketBody
        (updateTicketStatus t TicketStatus.IN_PROGRESS agent none now1)
        rules now2).2.escalated = false := by
  have hbody : ∀ (u : Ticket) (m : Int), u.isEscalated = true →
      (sweepTicketBody u rules m).1 = u ∧
      (sweepTicketBody u rules m).2.escalated = false := by
    intro u m hu
    simp [sweepTicketBody, hu]
  have hupd :
      (updateTicketStatus t TicketStatus.IN_PROGRESS agent none now1).isEscalated
        = true := by
    simp [updateTicketStatus, h]
  exact ⟨(hbody t now h).1, (hbody t now h).2, hupd,
    (hbody _ now2 hupd).1, (hbody _ now2 hupd).2⟩

/-- Witness for `sweep_never_reescalates`: the level-1 escalated sample
ticket, reopened by "agent1" at 1000 and swept at 82800000. -/
theorem sweep_never_reescalates_witness :
    escalatedTicket.isEscalated = true ∧
    ((sweepTicketBody escalatedTicket defaultEscalationRules 82800000).1
        = escalatedTicket ∧
     (sweepTicketBody escalatedTicket defaultEscalationRules 82800000).2.escalated
        = false ∧
     (updateTicketStatus escalatedTicket TicketStatus.IN_PROGRESS "agent1" none
        1000).isEscalated = true ∧
     (sweepTicketBody
        (updateTicketStatus escalatedTicket TicketStatus.IN_PROGRESS "agent1"
          none 1000) defaultEscalationRules 82800000).1
        = updateTicketStatus escalatedTicket TicketStatus.IN_PROGRESS "agent1"
            none 1000 ∧
     (sweepTicketBody
        (updateTicketStatus escalatedTicket TicketStatus.IN_PROGRESS "agent1"
          none 1000) defaultEscalationRules 82800000).2.escalated = false) :=
  ⟨rfl, sweep_never_reescalates escalatedTicket defaultEscalationRules
    82800000 1000 82800000 "agent1" rfl⟩
